import Mathlib

/-!
Verification of the sutro CLI's OAuth authentication flow and configuration
persistence, as a shallow embedding of the Go sources:

* `cmd/authenticate/authenticate.go` — the redirect-capture HTTP handler
  (`oAuthHTTPHandler.ServeHTTP`), the interactive consent flow
  (`authenticate`, `promptBoolean`, `promptBooleanOnce`), and the
  authorization-URL construction.
* `config` package — `fileConfiguration.Get`, `fileConfiguration.Save`,
  `NewConfiguration`, `configuration.TokenSource`.
* `main.go` — the process-exit save policy (`PersistentPostRunE`).

Effectful Go code is embedded as explicit state passing: the HTTP response
writer is a status cell where the first `WriteHeader` wins, the one-shot
code channel is a list of delivered values plus a closed flag, the file
system is an `Option String` content cell, and fallible external steps
(stat, open, read, marshal, write, token refresh, scanning stdin) are
parameters enumerating their possible outcomes.
-/

set_option autoImplicit false

/-! ## Redirect capture service: oAuthHTTPHandler.ServeHTTP -/

/-- Go `http.ResponseWriter` status semantics: the first `WriteHeader` call
wins; any later call is superfluous and ignored. -/
def writeHeader (current : Option Nat) (status : Nat) : Option Nat :=
  match current with
  | none => some status
  | some s => some s

/-- Observable outcome of one invocation of `oAuthHTTPHandler.ServeHTTP`:
the HTTP status actually written, the values sent on the code channel, whether
the handler closed the channel, and whether the handler goroutine panicked. -/
structure ServeResult where
  status : Nat
  delivered : List String
  closedChan : Bool
  panicked : Bool
deriving DecidableEq, Repr

/-- Model of `oAuthHTTPHandler.ServeHTTP` (authenticate.go lines 147-163).
`expectedState` is `handler.state`; `qcode` and `qstate` are the `code` and
`state` query parameters. The Go mismatch branch writes status 400, closes
`handler.codeChannel`, and then — there is no `return` — falls through: the
second `WriteHeader(200)` is superfluous and ignored, and the send
`handler.codeChannel <- code` on the now-closed channel panics, so no value
is ever delivered on a mismatch. On a match the handler writes 200 and sends
exactly the `code` value to the single blocked receiver. -/
def serveHTTP (expectedState qcode qstate : String) : ServeResult :=
  let w0 : Option Nat := none
  if expectedState ≠ qstate then
    let w1 := writeHeader w0 400
    let w2 := writeHeader w1 200
    { status := w2.getD 0, delivered := [], closedChan := true, panicked := true }
  else
    let w1 := writeHeader w0 200
    { status := w1.getD 0, delivered := [qcode], closedChan := false, panicked := false }

/-- Semantics of the blocking receive `code := <-oAuthCodeChannel` in
`authenticate`: a sent value if one was delivered; the zero value `""` if the
channel was closed without a send; otherwise the receiver stays blocked. -/
def chanRecv (delivered : List String) (closed : Bool) : Option String :=
  match delivered with
  | c :: _ => some c
  | [] => if closed then some "" else none

/-! ## Consent flow: promptBooleanOnce, promptBoolean, authenticate -/

/-- Go `strings.ToLower` on the characters of a string. -/
def toLowerStr (s : String) : String :=
  String.mk (s.data.map Char.toLower)

/-- Go `strings.TrimSpace`: drop whitespace from both ends. -/
def trimStr (s : String) : String :=
  String.mk (((s.data.dropWhile Char.isWhitespace).reverse.dropWhile
    Char.isWhitespace).reverse)

/-- Model of `promptBooleanOnce` (authenticate.go lines 238-263). `inputs` is
the sequence of whitespace-separated tokens `fmt.Scan` will read from stdin;
an empty list models a scan error (for example end of input). The attempt
counter is checked at entry, so exactly three unrecognized answers exhaust a
budget of 3. -/
def promptBooleanOnce : List String → Nat → Except String Bool
  | _, 0 => .error "Failed to obtain result from prompt"
  | inputs, n + 1 =>
    match inputs with
    | [] => .error "scan failed"
    | i :: rest =>
      let r := toLowerStr (trimStr i)
      if r = "yes" then .ok true
      else if r = "no" then .ok false
      else promptBooleanOnce rest n

/-- Model of `promptBoolean` (authenticate.go lines 233-236): three attempts. -/
def promptBoolean (inputs : List String) : Except String Bool :=
  promptBooleanOnce inputs 3

/-- Observable outcome of one run of `authenticate` after the redirect
service has been created: the error it returns (if any), whether it reached
the blocking receive on the code channel, whether it called
`oAuthConfig.Exchange`, and whether it called `sink.Save`. -/
structure AuthOutcome where
  retErr : Option String
  waitedForCode : Bool
  exchangeCalled : Bool
  savedConfig : Bool
deriving DecidableEq, Repr

/-- Model of the body of `authenticate` (authenticate.go lines 53-110) from
the prompt onward. `promptInputs` feeds `promptBoolean`; `browserOpenOk`
models whether `openBrowser` succeeds; `channelValue` is what the receive on
`oAuthCodeChannel` yields; `exchangeOk` models whether the token exchange
succeeds. Faithfully to the Go code, the error returned by `promptBoolean`
is assigned to `err` but never checked: a failed prompt leaves
`openInBrowser` false and the flow prints guidance and proceeds to block on
the channel. An empty received code returns an error before any exchange. -/
def authenticate (promptInputs : List String) (browserOpenOk : Bool)
    (channelValue : String) (exchangeOk : Bool) : AuthOutcome :=
  let pr := promptBoolean promptInputs
  let openInBrowser := match pr with
    | .ok b => b
    | .error _ => false
  if openInBrowser && !browserOpenOk then
    { retErr := some "openBrowser failed", waitedForCode := false,
      exchangeCalled := false, savedConfig := false }
  else
    let code := channelValue
    if code = "" then
      { retErr := some "Failed to obtain code from authenticate service",
        waitedForCode := true, exchangeCalled := false, savedConfig := false }
    else if exchangeOk then
      { retErr := none, waitedForCode := true, exchangeCalled := true,
        savedConfig := true }
    else
      { retErr := some "exchange failed", waitedForCode := true,
        exchangeCalled := true, savedConfig := false }

/-! ## Authorization URL construction: oauth2.Config.AuthCodeURL call site -/

/-- Go `url.Values.Set`: replace any existing values for the key by the
single given value. The map is embedded as an association list in which a
key occurs at most once. -/
def valuesSet (vals : List (String × List String)) (k v : String) :
    List (String × List String) :=
  (k, [v]) :: vals.filter (fun p => p.1 ≠ k)

/-- Go `url.Values` lookup of all values for a key. -/
def valuesGet (vals : List (String × List String)) (k : String) :
    Option (List String) :=
  (vals.find? (fun p => p.1 = k)).map (fun p => p.2)

/-- Embedding of `oauth2.Config.AuthCodeURL` from golang.org/x/oauth2 (the
library called at authenticate.go line 72), restricted to the query values
it builds: `response_type` and `client_id` always; `redirect_uri`, `scope`
(space-joined `cfg.Scopes`) and `state` when nonempty; then each
`AuthCodeOption` in order, every one of which calls `url.Values.Set`. -/
def authCodeURLQuery (clientID redirectURL : String) (scopes : List String)
    (st : String) (opts : List (String × String)) :
    List (String × List String) :=
  let v : List (String × List String) :=
    [("response_type", ["code"]), ("client_id", [clientID])]
  let v := if redirectURL ≠ "" then valuesSet v "redirect_uri" redirectURL else v
  let v := if scopes ≠ [] then valuesSet v "scope" (String.intercalate " " scopes) else v
  let v := if st ≠ "" then valuesSet v "state" st else v
  opts.foldl (fun acc kv => valuesSet acc kv.1 kv.2) v

/-- The hardcoded scope list passed first at authenticate.go line 75. -/
def defaultScopeParam : String := "activity:read_all,profile:read_all,read_all"

/-- The exact `AuthCodeURL` call made by `authenticate` (authenticate.go
lines 72-77): state, `oauth2.AccessTypeOffline`, then two
`SetAuthURLParam("scope", _)` options — the hardcoded default first, the
comma-joined user-supplied scopes second. `cfg.Scopes` is `flags.scopes`. -/
def authenticateAuthURLQuery (clientID redirectURL st : String)
    (scopes : List String) : List (String × List String) :=
  authCodeURLQuery clientID redirectURL scopes st
    [("access_type", "offline"),
     ("scope", defaultScopeParam),
     ("scope", String.intercalate "," scopes)]

/-! ## Configuration store data model -/

/-- `oauth2.Token`: access and refresh token strings, token type, and the
expiry instant in seconds (0 embeds Go's zero `time.Time`). -/
structure OAuthToken where
  accessToken : String
  tokenType : String
  refreshToken : String
  expiry : Int
deriving DecidableEq, Repr

/-- The `endpoints` struct of the config package. -/
structure Endpoints where
  authURL : String
  tokenURL : String
deriving DecidableEq, Repr

/-- The `configuration` struct of the config package: the persisted JSON
object's fields. -/
structure Configuration where
  clientID : String
  clientSecret : String
  endpoints : Endpoints
  token : OAuthToken
deriving DecidableEq, Repr

/-- `expiryDelta` from golang.org/x/oauth2: tokens are treated as expired
10 seconds early. -/
def expiryDelta : Int := 10

/-- `oauth2.Token.expired`: false for a zero expiry, otherwise true when
`expiry - expiryDelta` is before `now`. -/
def tokenExpired (t : OAuthToken) (now : Int) : Bool :=
  if t.expiry = 0 then false else decide (t.expiry - expiryDelta < now)

/-- `oauth2.Token.Valid`: nonempty access token and not expired. -/
def tokenValid (t : OAuthToken) (now : Int) : Bool :=
  (t.accessToken != "") && !(tokenExpired t now)

/-- Result of asking the token source for a token: the token obtained and
whether a refresh exchange was performed to obtain it. -/
structure TokenFetch where
  token : OAuthToken
  refreshed : Bool
deriving DecidableEq, Repr

/-- Embedding of `configuration.TokenSource(ctx).Token()` — oauth2's
`reuseTokenSource`: return the stored token untouched while it is valid;
otherwise perform the refresh exchange, whose outcome is the environment
parameter `refreshResult`. -/
def tokenSourceToken (stored : OAuthToken)
    (refreshResult : Except String OAuthToken) (now : Int) :
    Except String TokenFetch :=
  if tokenValid stored now then .ok { token := stored, refreshed := false }
  else
    match refreshResult with
    | .ok t => .ok { token := t, refreshed := true }
    | .error e => .error e

/-! ## fileConfiguration.Get -/

/-- Outcome of `os.Stat` on the configuration path: the file exists and is a
regular file, exists and is a directory, does not exist, or stat failed with
some other error (for example permission denied), in which case the returned
`FileInfo` is nil. -/
inductive StatOutcome
  | statFile
  | statDir
  | notExist
  | otherError
deriving DecidableEq, Repr

/-- Observable outcome of `fileConfiguration.Get`: a normal return of
`(Configuration, error)` — `ok none` is the absent-file `(nil, nil)`
sentinel — or a runtime panic. -/
inductive GetOutcome
  | panicked
  | ok (c : Option Configuration)
  | err (e : String)
deriving DecidableEq, Repr

/-- Model of `fileConfiguration.Get` (config package, lines 48-74).
`os.Stat` first: a not-exist error returns `(nil, nil)`; any other stat
error is not checked, so the code calls `fileInfo.IsDir()` on a nil
`FileInfo` and panics; a directory is an explicit error. Then `os.Open`
(`openOk`), `ioutil.ReadAll` (`readResult`), and `json.Unmarshal`
(`unmarshal`, a parameter standing for the external JSON decoder applied to
the bytes read); each failure returns `(nil, err)`, so a malformed file
never yields a partially-parsed configuration. -/
def fileGet (stat : StatOutcome) (openOk : Bool)
    (readResult : Except String String)
    (unmarshal : String → Except String Configuration) : GetOutcome :=
  match stat with
  | .notExist => .ok none
  | .otherError => .panicked
  | .statDir => .err "Unable to read configuration file"
  | .statFile =>
    if !openOk then .err "open failed"
    else
      match readResult with
      | .error e => .err e
      | .ok bytes =>
        match unmarshal bytes with
        | .error e => .err e
        | .ok c => .ok (some c)

/-! ## fileConfiguration.Save -/

/-- Prefix of a string by character count, used to model a short write. -/
def strTake (s : String) (n : Nat) : String :=
  String.mk (s.data.take n)

/-- Outcome of `file.Write`: full success, or failure after `written` bytes
(a prefix of the marshalled output) reached the file. -/
inductive WriteOutcome
  | ok
  | fail (written : Nat)
deriving DecidableEq, Repr

/-- Result of a `Save` call: the final content of the configuration file
(`none` means absent) and the error returned to the caller, if any. -/
structure SaveFileResult where
  file : Option String
  retErr : Option String
deriving DecidableEq, Repr

/-- File-effect model of `fileConfiguration.Save` (config package, lines
76-105), statement by statement. `prev` is the prior file content. First
`c.TokenSource(ctx).Token()` (`tokenOk`); on failure the error is returned
with the file untouched. Then `os.OpenFile(path, O_RDWR|O_CREATE|O_TRUNC,
0600)`: on failure the file is untouched; on success the file is truncated
to empty at once. Only then `json.MarshalIndent` (`marshalResult`, `none`
standing for a marshal error) and `file.Write` (`w`); their failures are
returned to the caller, but the file has already been truncated, holding
the empty string or a prefix of the new bytes. -/
def fileSave (prev : Option String) (tokenOk openOk : Bool)
    (marshalResult : Option String) (w : WriteOutcome) : SaveFileResult :=
  if !tokenOk then { file := prev, retErr := some "token source failed" }
  else if !openOk then { file := prev, retErr := some "open failed" }
  else
    let truncated : Option String := some ""
    match marshalResult with
    | none => { file := truncated, retErr := some "marshal failed" }
    | some bytes =>
      match w with
      | .fail n => { file := some (strTake bytes n), retErr := some "write failed" }
      | .ok => { file := some bytes, retErr := none }

/-- Value-level model of `fileConfiguration.Save` for the round-trip
property: the JSON layer (`json.MarshalIndent` / `json.Unmarshal` of the
`configuration` struct, external to the repository) is embedded at the value
level, the persisted file storing the decoded `configuration` value. Save
obtains the current token from `c.TokenSource(ctx).Token()` and serializes
the `persistentConfiguration` built from `c.OAuthConfiguration()` fields and
that token (config package, lines 76-105). -/
def savePersisted (c : Configuration)
    (refreshResult : Except String OAuthToken) (now : Int) :
    Except String Configuration :=
  match tokenSourceToken c.token refreshResult now with
  | .error e => .error e
  | .ok tf =>
    .ok { clientID := c.clientID
        , clientSecret := c.clientSecret
        , endpoints := { authURL := c.endpoints.authURL
                       , tokenURL := c.endpoints.tokenURL }
        , token := tf.token }

/-- The concrete configuration of the persistence round-trip property:
client id abc, secret xyz, the example authorization and token endpoint
URLs, and an access token tok1 whose expiry lies ahead. -/
def roundTripToken : OAuthToken :=
  { accessToken := "tok1", tokenType := "Bearer",
    refreshToken := "refresh1", expiry := 3600 }

/-- The configuration value holding `roundTripToken` and the four persisted
credential and endpoint fields of the round-trip property. -/
def roundTripConfig : Configuration :=
  { clientID := "abc", clientSecret := "xyz",
    endpoints := { authURL := "https://example.com/authorize",
                   tokenURL := "https://example.com/token" },
    token := roundTripToken }

/-! ## Process-exit save policy: main.go -/

/-- Model of the root command's `PersistentPostRunE` (main.go lines 66-72):
how many times the configuration store is saved at process exit after the
named command ran — zero for `authenticate`, one save for every other
command. -/
def exitSaveCount (cmdName : String) : Nat :=
  if cmdName = "authenticate" then 0 else 1

/-! ## Shared instances and helpers -/

instance {α β : Type} [DecidableEq α] [DecidableEq β] : DecidableEq (Except α β) :=
  fun a b =>
    match a, b with
    | .ok x, .ok y =>
      if h : x = y then .isTrue (by rw [h])
      else .isFalse (fun hc => h (Except.ok.inj hc))
    | .error x, .error y =>
      if h : x = y then .isTrue (by rw [h])
      else .isFalse (fun hc => h (Except.error.inj hc))
    | .ok _, .error _ => .isFalse (fun hc => Except.noConfusion hc)
    | .error _, .ok _ => .isFalse (fun hc => Except.noConfusion hc)

/-! ## Claim theorems -/

/-- C1: for every incoming redirect whose `state` query parameter differs
from the service's expected state token, `ServeHTTP` responds with status
400 (the later superfluous `WriteHeader(200)` is ignored), sends nothing on
the code channel, and the consent flow's blocked receive obtains the empty
failure value from the closed channel — never an authorization code. -/
theorem serveHTTP_state_mismatch_rejected (expected qcode qstate : String)
    (h : qstate ≠ expected) :
    (serveHTTP expected qcode qstate).status = 400 ∧
    (serveHTTP expected qcode qstate).delivered = [] ∧
    chanRecv (serveHTTP expected qcode qstate).delivered
      (serveHTTP expected qcode qstate).closedChan = some "" := by
  have hne : expected ≠ qstate := fun hh => h hh.symm
  simp [serveHTTP, chanRecv, writeHeader, hne]

/-- Witness for C1 at a concrete forged redirect. -/
theorem serveHTTP_state_mismatch_rejected_witness :
    (serveHTTP "expected-state" "authcode" "forged-state").status = 400 ∧
    (serveHTTP "expected-state" "authcode" "forged-state").delivered = [] ∧
    chanRecv (serveHTTP "expected-state" "authcode" "forged-state").delivered
      (serveHTTP "expected-state" "authcode" "forged-state").closedChan
      = some "" :=
  serveHTTP_state_mismatch_rejected "expected-state" "authcode" "forged-state"
    (by decide)

/-- C2: for every incoming redirect whose `state` equals the expected state
token and whose `code` is nonempty, `ServeHTTP` responds with status 200 and
sends exactly that code value once on the code channel, so the single
waiting consumer receives exactly it. -/
theorem serveHTTP_state_match_delivers (expected qcode : String)
    (h : qcode ≠ "") :
    (serveHTTP expected qcode expected).status = 200 ∧
    (serveHTTP expected qcode expected).delivered = [qcode] ∧
    chanRecv (serveHTTP expected qcode expected).delivered
      (serveHTTP expected qcode expected).closedChan = some qcode := by
  simp [serveHTTP, chanRecv, writeHeader]

/-- Witness for C2 at a concrete matching redirect. -/
theorem serveHTTP_state_match_delivers_witness :
    (serveHTTP "expected-state" "authcode" "expected-state").status = 200 ∧
    (serveHTTP "expected-state" "authcode" "expected-state").delivered
      = ["authcode"] ∧
    chanRecv (serveHTTP "expected-state" "authcode" "expected-state").delivered
      (serveHTTP "expected-state" "authcode" "expected-state").closedChan
      = some "authcode" :=
  serveHTTP_state_match_delivers "expected-state" "authcode" (by decide)

/-- C4: evaluation at the failing input. Three unrecognized answers make
`promptBoolean` fail with the prompt-exhausted error, but `authenticate`
drops that error: it still proceeds to block on the code channel and, once
a code arrives, completes without ever returning the prompt error. -/
theorem authenticate_ignores_prompt_exhaustion :
    promptBoolean ["maybe", "maybe", "maybe"]
      = Except.error "Failed to obtain result from prompt" ∧
    (authenticate ["maybe", "maybe", "maybe"] true "somecode" true).waitedForCode
      = true ∧
    (authenticate ["maybe", "maybe", "maybe"] true "somecode" true).retErr
      = none := by
  refine ⟨?_, ?_, ?_⟩ <;> decide

/-- C9: whenever the consent flow's receive yields the empty string,
`authenticate` returns the no-code error, never calls the token exchange,
and never saves a configuration — a single terminal failure with no retry. -/
theorem authenticate_empty_code_is_terminal (inputs : List String)
    (bOk xOk : Bool)
    (h : (authenticate inputs bOk "" xOk).waitedForCode = true) :
    (authenticate inputs bOk "" xOk).retErr
      = some "Failed to obtain code from authenticate service" ∧
    (authenticate inputs bOk "" xOk).exchangeCalled = false ∧
    (authenticate inputs bOk "" xOk).savedConfig = false := by
  by_cases hb : ((match promptBoolean inputs with
    | .ok b => b
    | .error _ => false) && !bOk) = true
  · exfalso
    simp [authenticate, hb] at h
  · simp [authenticate, hb]

/-- Witness for C9: empty code received after the user declined the browser. -/
theorem authenticate_empty_code_is_terminal_witness :
    (authenticate ["no"] true "" true).retErr
      = some "Failed to obtain code from authenticate service" ∧
    (authenticate ["no"] true "" true).exchangeCalled = false ∧
    (authenticate ["no"] true "" true).savedConfig = false :=
  authenticate_empty_code_is_terminal ["no"] true true (by decide)

/-- C5: for every user-supplied scopes list, the `AuthCodeURL` call made by
`authenticate` sets `scope` twice through `url.Values.Set` — the hardcoded
default first, the comma-joined user list second — and the later `Set`
replaces the earlier value, so the final query carries the single
comma-joined user-supplied scope value. -/
theorem authURL_scope_user_supplied_wins (clientID redirectURL st : String)
    (scopes : List String) :
    valuesGet (authCodeURLQuery clientID redirectURL scopes st
        [("access_type", "offline"), ("scope", defaultScopeParam)]) "scope"
      = some [defaultScopeParam] ∧
    valuesGet (authenticateAuthURLQuery clientID redirectURL st scopes) "scope"
      = some [String.intercalate "," scopes] := by
  constructor <;>
    simp [authenticateAuthURLQuery, authCodeURLQuery, valuesGet, valuesSet]

/-- C3 counterexample: a `Save` over previously-good file content that fails
at the write step returns an error, yet the file no longer holds the
previously-good content (the open already truncated it). -/
theorem fileSave_write_failure_corrupts :
    (fileSave (some "previous good content") true true (some "fresh content")
      (WriteOutcome.fail 0)).retErr.isSome = true ∧
    (fileSave (some "previous good content") true true (some "fresh content")
      (WriteOutcome.fail 0)).file ≠ some "previous good content" := by
  decide

/-- C3 amended: a failure of the token-source step or of the open step
leaves the file untouched; but once the open succeeds the file is truncated
immediately, so a marshal failure leaves it empty and a write failure leaves
only the written prefix of the new bytes; in every failure case the error is
propagated to the caller, and only a fully successful save stores the new
content. -/
theorem fileSave_failure_modes (prev : Option String) (bytes : String)
    (n : Nat) :
    ((fileSave prev false true (some bytes) WriteOutcome.ok).file = prev ∧
     (fileSave prev false true (some bytes) WriteOutcome.ok).retErr.isSome
       = true) ∧
    ((fileSave prev true false (some bytes) WriteOutcome.ok).file = prev ∧
     (fileSave prev true false (some bytes) WriteOutcome.ok).retErr.isSome
       = true) ∧
    ((fileSave prev true true none WriteOutcome.ok).file = some "" ∧
     (fileSave prev true true none WriteOutcome.ok).retErr.isSome = true) ∧
    ((fileSave prev true true (some bytes) (WriteOutcome.fail n)).file
       = some (strTake bytes n) ∧
     (fileSave prev true true (some bytes) (WriteOutcome.fail n)).retErr.isSome
       = true) ∧
    ((fileSave prev true true (some bytes) WriteOutcome.ok).file = some bytes ∧
     (fileSave prev true true (some bytes) WriteOutcome.ok).retErr = none) := by
  simp [fileSave]

/-- C6: after the authentication command the exit hook saves zero times (the
only save being the one `authenticate` itself performs on success), while
after any other command the exit hook saves exactly once. -/
theorem exit_save_policy (cmdName : String) (inputs : List String)
    (code : String) (hname : cmdName ≠ "authenticate") (hcode : code ≠ "") :
    exitSaveCount "authenticate" = 0 ∧
    (authenticate inputs true code true).savedConfig = true ∧
    exitSaveCount cmdName = 1 := by
  refine ⟨rfl, ?_, by simp [exitSaveCount, hname]⟩
  simp [authenticate, hcode]

/-- Witness for C6: a non-authentication command and a successful
authentication run. -/
theorem exit_save_policy_witness :
    exitSaveCount "authenticate" = 0 ∧
    (authenticate ["yes"] true "authcode" true).savedConfig = true ∧
    exitSaveCount "activities" = 1 :=
  exit_save_policy "activities" ["yes"] "authcode" (by decide) (by decide)

/-- C7: `Get` returns the `(nil, nil)` no-configuration sentinel — not an
error — when the file is absent, and returns the decoding error with no
configuration (never a partially-parsed one) whenever the file is present
but its bytes fail to unmarshal. -/
theorem fileGet_absent_sentinel_and_malformed_error (openOk : Bool)
    (rr : Except String String) (bytes e : String)
    (u : String → Except String Configuration)
    (hu : u bytes = Except.error e) :
    fileGet StatOutcome.notExist openOk rr u = GetOutcome.ok none ∧
    fileGet StatOutcome.statFile true (Except.ok bytes) u = GetOutcome.err e := by
  constructor
  · rfl
  · simp [fileGet, hu]

/-- Witness for C7: an absent file and a malformed present file. -/
theorem fileGet_absent_sentinel_and_malformed_error_witness :
    fileGet StatOutcome.notExist true (Except.ok "ignored")
      (fun _ => Except.error "malformed") = GetOutcome.ok none ∧
    fileGet StatOutcome.statFile true (Except.ok "not json")
      (fun _ => Except.error "malformed") = GetOutcome.err "malformed" :=
  fileGet_absent_sentinel_and_malformed_error true (Except.ok "ignored")
    "not json" "malformed" (fun _ => Except.error "malformed") rfl

/-- C8: saving the configuration with client id abc, secret xyz, the example
authorize and token URLs, and an access token tok1 that is still valid at
save time round-trips: the persisted value reproduces all four fields and
the token, and the loaded configuration's token source returns tok1 without
performing a refresh, whatever the refresh exchange would have produced. -/
theorem save_load_round_trip (refreshResult : Except String OAuthToken)
    (now : Int) (hvalid : tokenValid roundTripToken now = true) :
    savePersisted roundTripConfig refreshResult now
      = Except.ok roundTripConfig ∧
    tokenSourceToken roundTripConfig.token refreshResult now
      = Except.ok { token := roundTripToken, refreshed := false } := by
  have htok : roundTripConfig.token = roundTripToken := rfl
  have h2 : tokenSourceToken roundTripConfig.token refreshResult now
      = Except.ok { token := roundTripToken, refreshed := false } := by
    rw [htok]
    simp [tokenSourceToken, hvalid]
  refine ⟨?_, h2⟩
  unfold savePersisted
  rw [h2]
  rfl

/-- Witness for C8: saving at an instant 3600 seconds before expiry, with a
refresh exchange that would fail if it were ever invoked. -/
theorem save_load_round_trip_witness :
    savePersisted roundTripConfig (Except.error "refresh exchange invoked") 0
      = Except.ok roundTripConfig ∧
    tokenSourceToken roundTripConfig.token
      (Except.error "refresh exchange invoked") 0
      = Except.ok { token := roundTripToken, refreshed := false } :=
  save_load_round_trip (Except.error "refresh exchange invoked") 0 (by decide)

/-- C10: `Get` panics by calling `IsDir` on a nil `FileInfo` exactly when
`os.Stat` fails with an error other than not-exist; under the precondition
that stat succeeds or fails with not-exist (or reports a directory), `Get`
always returns normally. -/
theorem fileGet_nil_stat_dereference (stat : StatOutcome) (openOk : Bool)
    (rr : Except String String)
    (u : String → Except String Configuration)
    (hstat : stat ≠ StatOutcome.otherError) :
    fileGet StatOutcome.otherError openOk rr u = GetOutcome.panicked ∧
    fileGet stat openOk rr u ≠ GetOutcome.panicked := by
  refine ⟨rfl, ?_⟩
  cases stat with
  | notExist => simp [fileGet]
  | statDir => simp [fileGet]
  | otherError => exact absurd rfl hstat
  | statFile =>
    cases openOk with
    | false => simp [fileGet]
    | true =>
      cases rr with
      | error e => simp [fileGet]
      | ok bytes =>
        cases hub : u bytes with
        | error e => simp [fileGet, hub]
        | ok c => simp [fileGet, hub]

/-- Witness for C10: a permission-denied stat panics while a not-exist stat
returns normally. -/
theorem fileGet_nil_stat_dereference_witness :
    fileGet StatOutcome.otherError true (Except.ok "ignored")
      (fun _ => Except.error "unused") = GetOutcome.panicked ∧
    fileGet StatOutcome.notExist true (Except.ok "ignored")
      (fun _ => Except.error "unused") ≠ GetOutcome.panicked :=
  fileGet_nil_stat_dereference StatOutcome.notExist true (Except.ok "ignored")
    (fun _ => Except.error "unused") (by decide)
